import Mathlib

/-!
# Verification of the classification and scoring engine

Shallow embedding, in Lean 4, of the rule-based classification and scoring
core of the reputation-monitoring service, together with proofs settling the
spec claims about it.

Embedded source functions (Python → Lean):
* `app/api/main.py`:
  `_calculate_reputation_score` → `calculate_reputation_score`,
  `_calculate_realistic_trend` → `calculate_realistic_trend`.
* `app/core/analysis_service.py`:
  `classify_intent`, `detect_crisis_signals`, `_apply_context_adjustments`,
  `_get_sentiment_label`, `analyze_sentiment`.
* `app/core/mention_service.py`:
  `_determine_priority` → `determine_priority`,
  `_extract_keywords` → `extract_keywords`,
  `_extract_topics` → `extract_topics`.

Modelling conventions:
* Python floats are modelled as `ℚ` (all constants in the source are decimal
  literals, exactly representable; we do not model binary floating-point
  rounding noise).
* Python `str.lower()` is modelled by mapping `Char.toLower` (the source data
  is ASCII keyword matching).
* Python's `needle in haystack` substring test is modelled by `strContains`.
* `None`-able values are modelled with `Option`; Python truthiness tests
  (`or`, `if x:`) are modelled explicitly (`none` and `0.0` and `""` are
  falsy).
-/

/-! ## String utilities (Python `str.lower` and substring `in`) -/

/-- Python `str.lower()` on ASCII text: lowercase every character. -/
def lowerStr (s : String) : String := ⟨s.data.map Char.toLower⟩

/-- `leadsWith n h` : the char list `n` is an initial segment of `h`. -/
def leadsWith : List Char → List Char → Bool
  | [], _ => true
  | _ :: _, [] => false
  | a :: as, b :: bs => a == b && leadsWith as bs

/-- `hasSub n h` : the char list `n` occurs contiguously inside `h`. -/
def hasSub : List Char → List Char → Bool
  | n, [] => n.isEmpty
  | n, c :: t => leadsWith n (c :: t) || hasSub n t

/-- Python's `needle in haystack` substring test. -/
def strContains (haystack needle : String) : Bool :=
  hasSub needle.data haystack.data

/-! ## Reputation scorer — `_calculate_reputation_score` (app/api/main.py)

The function receives a list of classified `UserMention` ORM rows and reads
their `sentiment`, `priority`, `intent` and `confidence_score` columns.  The
three label columns are modelled as `String` (the source compares them with
`==` against string literals, so any non-matching value — including a NULL —
takes the default branch); `confidence_score` is a nullable float column,
modelled as `Option ℚ`. -/

structure UserMention where
  sentiment : String
  priority : String
  intent : String
  confidence_score : Option ℚ

/-- Base sentiment value: `sentiment_score = 50`, positive → 80,
negative → 20 (`_calculate_reputation_score`, loop body). -/
def sentiment_value (s : String) : ℚ :=
  if s = "positive" then 80 else if s = "negative" then 20 else 50

/-- Priority weight: default 1.0, critical → 3.0, high → 2.0, medium → 1.5. -/
def priority_weight (p : String) : ℚ :=
  if p = "critical" then 3.0 else if p = "high" then 2.0
  else if p = "medium" then 1.5 else 1.0

/-- Intent modifier: default 1.0, complaint → 2.0, recommendation → 1.5. -/
def intent_modifier (i : String) : ℚ :=
  if i = "complaint" then 2.0 else if i = "recommendation" then 1.5 else 1.0

/-- `confidence_weight = mention.confidence_score or 0.5`.  Python `or`
takes the right operand when the left is *falsy*, i.e. when the column is
NULL **or when it is exactly 0.0** — not only when it is absent. -/
def confidence_weight : Option ℚ → ℚ
  | none => 0.5
  | some c => if c = 0 then 0.5 else c

/-- `final_weight = priority_weight * intent_modifier * confidence_weight`. -/
def mention_weight (m : UserMention) : ℚ :=
  priority_weight m.priority * intent_modifier m.intent *
    confidence_weight m.confidence_score

/-- Accumulated `total_weight` of the loop. -/
def total_mention_weight (ms : List UserMention) : ℚ :=
  (ms.map mention_weight).sum

/-- Accumulated `weighted_score` of the loop. -/
def total_weighted_score (ms : List UserMention) : ℚ :=
  (ms.map (fun m => sentiment_value m.sentiment * mention_weight m)).sum

/-- `_calculate_reputation_score` (app/api/main.py, lines 927–970):
empty input → 50.0; otherwise the weighted average guarded by
`total_weight > 0`, clamped to [0, 100] by `max(0, min(100, final_score))`. -/
def calculate_reputation_score (ms : List UserMention) : ℚ :=
  if ms.isEmpty then 50.0
  else
    let tw := total_mention_weight ms
    let ws := total_weighted_score ms
    let fs := if 0 < tw then ws / tw else 50.0
    max 0 (min 100 fs)

/-- The reputation formula exactly as claim C1 words it: per-mention weight
`priority weight × intent modifier × confidence score (0.5 when absent)` —
i.e. a *present* confidence score is always used as-is, even `0.0` —
then `Σ(sentimentValue × weight) / Σ(weight)` clamped to [0,100]. -/
def claim_reputation_formula_orig (ms : List UserMention) : ℚ :=
  let w := fun m : UserMention =>
    priority_weight m.priority * intent_modifier m.intent *
      (m.confidence_score.getD 0.5)
  max 0 (min 100
    ((ms.map (fun m => sentiment_value m.sentiment * w m)).sum /
      (ms.map w).sum))

/-- The reputation formula as amended: the confidence factor is 0.5 when the
stored confidence score is absent **or zero** (Python `or` truthiness),
otherwise the stored value. -/
def claim_reputation_formula (ms : List UserMention) : ℚ :=
  let w := fun m : UserMention =>
    priority_weight m.priority * intent_modifier m.intent *
      confidence_weight m.confidence_score
  max 0 (min 100
    ((ms.map (fun m => sentiment_value m.sentiment * w m)).sum /
      (ms.map w).sum))

/-- A classified mention carries a confidence score in [0,1] when one is
stored (data-model invariant `confidenceScore ∈ [0,1]`). -/
def conf_valid (m : UserMention) : Prop :=
  ∀ x, m.confidence_score = some x → 0 ≤ x ∧ x ≤ 1

/-! ## Topic trend — `_calculate_realistic_trend` (app/api/main.py, 1326–1370) -/

/-- Round-half-to-even to an integer, the behaviour of Python's `round`
on an exactly-representable value. -/
def round_half_even (x : ℚ) : ℤ :=
  let f := ⌊x⌋
  let r := x - f
  if r < 1/2 then f
  else if 1/2 < r then f + 1
  else if f % 2 = 0 then f else f + 1

/-- Python `round(x, 1)`: round to one decimal place, ties to even. -/
def round1 (x : ℚ) : ℚ := (round_half_even (10 * x) : ℚ) / 10

/-- `_calculate_realistic_trend(current_mentions, previous_mentions)`:
edge cases first (`previous == 0`, then `current == 0`), then the raw
percentage change with a small-sample guard for `previous <= 3` and the
standard `[-100, 500]` clamp otherwise, returned as `round(trend, 1)`.
The early returns of the edge cases are not rounded in the source (their
values are exact one-decimal constants anyway). -/
def calculate_realistic_trend (current_mentions previous_mentions : ℕ) : ℚ :=
  if previous_mentions = 0 then
    if 0 < current_mentions then 100.0 else 0.0
  else if current_mentions = 0 then
    -100.0
  else
    let raw_percentage : ℚ :=
      (((current_mentions : ℚ) - (previous_mentions : ℚ)) /
        (previous_mentions : ℚ)) * 100
    let trend_percentage : ℚ :=
      if previous_mentions ≤ 3 then
        if previous_mentions * 3 < current_mentions then
          min 300.0 raw_percentage
        else if (current_mentions : ℚ) < (previous_mentions : ℚ) / 3 then
          max (-75.0) raw_percentage
        else raw_percentage
      else max (-100.0) (min 500.0 raw_percentage)
    round1 trend_percentage

/-- The trend rule exactly as claim C3 words it (same cascade, but the
"raw percentage change" branches are used *raw*, with no rounding). -/
def claim_trend (current previous : ℕ) : ℚ :=
  if previous = 0 then
    if 0 < current then 100 else 0
  else if current = 0 then
    -100
  else
    let raw : ℚ := (((current : ℚ) - (previous : ℚ)) / (previous : ℚ)) * 100
    if previous ≤ 3 then
      if previous * 3 < current then min 300 raw
      else if (current : ℚ) < (previous : ℚ) / 3 then max (-75) raw
      else raw
    else max (-100) (min 500 raw)

/-! ## Crisis detector — `detect_crisis_signals` (app/core/analysis_service.py)

A review contributes at most one signal per category (the inner keyword loop
`break`s after the first hit), so a category's count is the number of reviews
whose lowercased `content + ' ' + title` contains one of its keywords.
The `affected_reviews` samples and the `recommendation` string are not needed
by any claim and are omitted from the embedded result record; the
`category_breakdown` dict is exposed through `signal_count`.  The source
accumulates counts in a `defaultdict` whose iteration order is the order in
which categories first matched; only alert *membership* and fields are
claimed, so alerts are embedded in the (fixed) declaration order of
`self.crisis_keywords`. -/

structure Review where
  content : String
  title : String
  deriving DecidableEq

/-- `self.crisis_keywords` (analysis_service.py, constructor). -/
def crisis_keywords : List (String × List String) :=
  [("technical", ["crash", "not working", "broken", "down", "offline", "error"]),
   ("payment", ["charged", "billing", "payment", "money", "refund", "overcharge"]),
   ("security", ["hacked", "security", "privacy", "data breach", "stolen"]),
   ("service", ["rude", "unprofessional", "terrible service", "bad support"])]

def crisis_categories : List String := crisis_keywords.map (·.1)

/-- `content = (review.get('content','') + ' ' + review.get('title','')).lower()`. -/
def review_text (r : Review) : String := lowerStr (r.content ++ " " ++ r.title)

/-- Keyword list of a category name (the dict lookup). -/
def crisis_keywords_for (cat : String) : List String :=
  ((crisis_keywords.find? (fun ck => ck.1 == cat)).map (·.2)).getD []

/-- One review yields a signal for a category iff some keyword of the
category occurs in its text (inner loop with `break`). -/
def category_hit (cat : String) (r : Review) : Bool :=
  (crisis_keywords_for cat).any (fun k => strContains (review_text r) k)

/-- `crisis_signals[category]` after the scan. -/
def signal_count (reviews : List Review) (cat : String) : ℕ :=
  reviews.countP (category_hit cat)

/-- `total_signals = sum(crisis_signals.values())`. -/
def crisis_total_signals (reviews : List Review) : ℕ :=
  (crisis_categories.map (signal_count reviews)).sum

/-- The level cascade: `>= 10` critical, `>= 5` high, `>= 2` medium, else low. -/
def crisis_level_of (n : ℕ) : String :=
  if 10 ≤ n then "critical"
  else if 5 ≤ n then "high"
  else if 2 ≤ n then "medium"
  else "low"

structure CrisisAlert where
  category : String
  severity : String
  count : ℕ
  message : String
  deriving DecidableEq

/-- The templated alert message
`f"Spike detected in {category} issues: {count} mentions in recent reviews"`. -/
def crisis_alert_message (cat : String) (n : ℕ) : String :=
  s!"Spike detected in {cat} issues: {n} mentions in recent reviews"

structure CrisisResult where
  alerts : List CrisisAlert
  crisis_level : String
  total_signals : ℕ
  deriving DecidableEq

/-- `detect_crisis_signals` (analysis_service.py, lines 512–577).  Empty
input short-circuits to `{"alerts": [], "crisis_level": "none",
"total_signals": 0}`; otherwise the keyword scan, the level cascade, and one
alert per category with at least 2 signals (severity high when `count >= 5`,
else medium). -/
def detect_crisis_signals (reviews : List Review) : CrisisResult :=
  if reviews.isEmpty then ⟨[], "none", 0⟩
  else
    let total := crisis_total_signals reviews
    let alerts := crisis_keywords.filterMap (fun ck =>
      if 2 ≤ signal_count reviews ck.1 then
        some ⟨ck.1,
          if 5 ≤ signal_count reviews ck.1 then "high" else "medium",
          signal_count reviews ck.1,
          crisis_alert_message ck.1 (signal_count reviews ck.1)⟩
      else none)
    ⟨alerts, crisis_level_of total, total⟩

/-! ## Intent classifier — `classify_intent` (app/core/analysis_service.py)

`intent_scores` keeps only the categories with a positive hit count, in the
declaration order of `self.intent_patterns` (Python dicts preserve insertion
order).  `max(keys, key=...)` returns the **first** key attaining the maximal
score, which is `pick_first_max` below.  The `all_scores` debugging field of
the returned dict is not claimed and is omitted. -/

/-- `self.intent_patterns` (analysis_service.py, constructor). -/
def intent_patterns : List (String × List String) :=
  [("complaint",
    ["not working", "doesnt work", "broken", "terrible", "awful", "worst",
     "hate", "disappointed", "frustrated", "annoying", "useless", "horrible",
     "crash", "bug", "issue", "problem", "error", "fail", "refund"]),
   ("question",
    ["how to", "how do", "can i", "is it possible", "help", "support",
     "what is", "where is", "when will", "why does", "tutorial", "guide"]),
   ("recommendation",
    ["recommend", "suggest", "try", "should use", "better", "alternative",
     "prefer", "switch to", "instead of", "upgrade"]),
   ("neutral_mention",
    ["using", "experience with", "tried", "found", "noticed", "seems",
     "appears", "looks like", "basically", "generally"])]

def intent_categories : List String := intent_patterns.map (·.1)

/-- Keyword list of an intent category (the dict lookup). -/
def intent_keywords_for (c : String) : List String :=
  ((intent_patterns.find? (fun p => p.1 == c)).map (·.2)).getD []

/-- `score = sum(1 for keyword in keywords if keyword in text_lower)`. -/
def intent_score (text c : String) : ℕ :=
  (intent_keywords_for c).countP (fun k => strContains (lowerStr text) k)

/-- Python `max(iterable, key=f)`: the first element attaining the maximal
key (`max` only replaces its running best on a strictly greater key). -/
def pick_first_max (f : String → ℕ) : List String → Option String
  | [] => none
  | c :: cs => some (cs.foldl (fun b x => if f b < f x then x else b) c)

/-- The categories that enter `intent_scores` (score strictly positive),
in declaration order. -/
def eligible_intents (text : String) : List String :=
  intent_categories.filter (fun c => decide (0 < intent_score text c))

structure IntentResult where
  intent : String
  confidence : ℚ
  keywords_matched : List String
  deriving DecidableEq

/-- `classify_intent` (analysis_service.py, lines 474–510): no positive
category → `neutral_mention` at confidence 0.5 with no keywords; otherwise
the first maximal category, `confidence = min(1.0, score/3)`, and the
matched keywords of that category. -/
def classify_intent (text : String) : IntentResult :=
  match pick_first_max (intent_score text) (eligible_intents text) with
  | none => ⟨"neutral_mention", 0.5, []⟩
  | some primary =>
    ⟨primary,
     min 1.0 ((intent_score text primary : ℚ) / 3),
     (intent_keywords_for primary).filter
       (fun k => strContains (lowerStr text) k)⟩

/-! ## Priority ranker — `_determine_priority` (app/core/mention_service.py)

The sentiment argument is the dict returned by `analyze_sentiment`
(`sentiment_label` always present; `confidence` present only on the
OpenAI path, `.get("confidence", 0)` defaults it to 0), the intent argument
the dict returned by `classify_intent`. -/

structure SentimentInfo where
  sentiment_label : String
  confidence : Option ℚ
  deriving DecidableEq

structure IntentInfo where
  intent : String
  confidence : Option ℚ
  deriving DecidableEq

/-- `critical_keywords` (mention_service.py, `_determine_priority`). -/
def critical_keywords : List String :=
  ["terrible", "worst", "awful", "broken", "crash", "bug", "error",
   "scam", "fraud", "stealing", "illegal", "lawsuit", "refund",
   "money back", "cancel subscription", "hate", "disgusting"]

/-- `high_keywords` (mention_service.py, `_determine_priority`). -/
def high_keywords : List String :=
  ["problem", "issue", "complaint", "disappointed", "frustrated",
   "not working", "doesn\x27t work", "failed", "slow", "lag"]

/-- `_determine_priority` (mention_service.py, lines 125–169): the
first-match-wins cascade critical → high → medium → low. -/
def determine_priority (sentiment : SentimentInfo) (intent : IntentInfo)
    (content : String) : String :=
  let content_lower := lowerStr content
  if (sentiment.sentiment_label = "negative" ∧
        0.8 < sentiment.confidence.getD 0) ∨
     (intent.intent = "complaint" ∧ 0.8 < intent.confidence.getD 0) ∨
     critical_keywords.any (fun k => strContains content_lower k) = true then
    "critical"
  else if (sentiment.sentiment_label = "negative" ∧
        0.6 < sentiment.confidence.getD 0) ∨
     intent.intent = "complaint" ∨
     high_keywords.any (fun k => strContains content_lower k) = true then
    "high"
  else if intent.intent = "question" ∨
     sentiment.sentiment_label = "neutral" then
    "medium"
  else "low"

/-! ## Sentiment scorer (app/core/analysis_service.py)

`_apply_context_adjustments` matches a fixed bank of regex patterns against
the lowercased text with `re.search` and adds the associated deltas to the
TextBlob base polarity.  Both the base polarity (TextBlob, an external
lexicon library) and the regex matcher (`re.search` from the Python standard
library) are external to the core logic; they enter the embedding as
parameters: `research pattern text` stands for
`re.search(pattern, text) is not None`.  The claims proved about this
function hold for every matcher. -/

/-- `dissatisfaction_patterns` — always applied when matched. -/
def dissatisfaction_patterns : List (String × ℚ) :=
  [("\\b(alternative|alternatives)\\s+to\\b", -0.4),
   ("\\bother\\s+(apps?|options?|services?)\\s+(than|instead of|better than)\\b", -0.4),
   ("\\breplace(ment)?\\s+(for|to)\\b", -0.3),
   ("\\bswitch\\s+(from|away from)\\b", -0.3),
   ("\\bbetter\\s+(than|alternatives?|options?)\\b", -0.2),
   ("\\bcheaper\\s+(than|alternatives?|options?)\\b", -0.2),
   ("\\bwhat.*better\\b", -0.2),
   ("\\banything\\s+(better|cheaper)\\b", -0.2),
   ("\\bstop\\s+using\\b", -0.4),
   ("\\buninstall\\b", -0.4),
   ("\\bdelete\\b.*\\bapp\\b", -0.4),
   ("\\bworse\\s+than\\b", -0.3),
   ("\\bnot\\s+worth\\b", -0.3),
   ("\\bwaste\\s+of\\b", -0.4),
   ("\\bokay\\s+but\\b", -0.2),
   ("\\bfine\\s+but\\b", -0.2),
   ("\\bdecent\\s+but\\b", -0.2),
   ("\\bused\\s+to\\s+be\\s+(good|great|better)\\b", -0.3),
   ("\\bwant\\s+(better|cheaper|different)\\b", -0.2),
   ("\\bneed\\s+(something|anything)\\s+(better|cheaper|else)\\b", -0.3)]

/-- `positive_reinforcement_patterns` — applied only when the base polarity
is strictly positive. -/
def positive_reinforcement_patterns : List (String × ℚ) :=
  [("\\blove\\s+(this|it|uber|lyft)\\b", 0.2),
   ("\\bamazing\\b", 0.3),
   ("\\bawesome\\b", 0.3),
   ("\\bperfect\\b", 0.3),
   ("\\bexcellent\\b", 0.3),
   ("\\bhighly\\s+recommend\\b", 0.4),
   ("\\bbest\\s+(app|service)\\b", 0.3)]

/-- `negative_reinforcement_patterns` — always applied when matched. -/
def negative_reinforcement_patterns : List (String × ℚ) :=
  [("\\bterrible\\b", -0.4),
   ("\\bawful\\b", -0.4),
   ("\\bhorrible\\b", -0.4),
   ("\\bnever\\s+(again|use|using)\\b", -0.4),
   ("\\bworst\\b", -0.4),
   ("\\bhate\\b", -0.4),
   ("\\bdisgusting\\b", -0.4)]

/-- Add the deltas of every pattern of `bank` that the matcher fires on. -/
def apply_pattern_bank (research : String → String → Bool)
    (text_lower : String) (start : ℚ) (bank : List (String × ℚ)) : ℚ :=
  bank.foldl (fun acc pd => if research pd.1 text_lower then acc + pd.2 else acc)
    start

/-- `_apply_context_adjustments(text, base_polarity)`
(analysis_service.py, lines 87–172): dissatisfaction deltas always,
positive-reinforcement deltas only when `base_polarity > 0`, negative
reinforcement always, then `max(-1.0, min(1.0, adjusted))`. -/
def apply_context_adjustments (research : String → String → Bool)
    (text : String) (base_polarity : ℚ) : ℚ :=
  let text_lower := lowerStr text
  let a1 := apply_pattern_bank research text_lower base_polarity
    dissatisfaction_patterns
  let a2 := if 0 < base_polarity then
      apply_pattern_bank research text_lower a1 positive_reinforcement_patterns
    else a1
  let a3 := apply_pattern_bank research text_lower a2
    negative_reinforcement_patterns
  max (-1.0) (min 1.0 a3)

/-- `_get_sentiment_label` (analysis_service.py, lines 278–285). -/
def get_sentiment_label (polarity : ℚ) : String :=
  if 0.05 < polarity then "positive"
  else if polarity < -0.05 then "negative"
  else "neutral"

/-- The dict returned by `analyze_sentiment`: common shape of the TextBlob
path (`confidence`/`reasoning` absent, `base_polarity` present) and the
OpenAI path (`confidence`/`reasoning` present, `base_polarity` absent). -/
structure SentimentOutput where
  polarity : ℚ
  subjectivity : ℚ
  sentiment_label : String
  confidence : Option ℚ
  reasoning : Option String
  base_polarity : Option ℚ
  method : String

/-- The TextBlob fallback result built at the end of `analyze_sentiment`. -/
def textblob_enhanced_result (research : String → String → Bool)
    (text : String) (base_polarity subjectivity : ℚ) : SentimentOutput :=
  { polarity := apply_context_adjustments research text base_polarity
    subjectivity := subjectivity
    sentiment_label :=
      get_sentiment_label (apply_context_adjustments research text base_polarity)
    confidence := none
    reasoning := none
    base_polarity := some base_polarity
    method := "textblob_enhanced" }

/-- `analyze_sentiment` (analysis_service.py, lines 53–85).  The OpenAI
attempt is gated on a truthy `OPENAI_API_KEY` environment variable; the whole
external path — the LLM round-trip of `_analyze_sentiment_with_openai`, its
brace extraction and its JSON parse — either produces a result dict or fails.
Every failure mode of the source funnels into `none` here:
`_analyze_sentiment_with_openai` wraps its body in a catch-all `except` and
returns `None` both on an exception and on an unparseable response, and
`analyze_sentiment` additionally catches any exception of the attempt and
falls through to the TextBlob path, so no failure of the external strategy
escapes `analyze_sentiment`.  The embedding therefore takes the outcome of
the external attempt as an `Option SentimentOutput` parameter. -/
def analyze_sentiment (research : String → String → Bool)
    (api_key : Option String) (openai_result : Option SentimentOutput)
    (text : String) (base_polarity subjectivity : ℚ) : SentimentOutput :=
  if (api_key.getD "") ≠ "" then
    match openai_result with
    | some r => r
    | none => textblob_enhanced_result research text base_polarity subjectivity
  else textblob_enhanced_result research text base_polarity subjectivity

/-! ## Keyword and topic extraction (app/core/mention_service.py) -/

/-- `product_keywords` (mention_service.py, `_extract_keywords`). -/
def product_keywords : List String :=
  ["app", "service", "price", "cost", "payment", "billing", "subscription",
   "feature", "update", "interface", "design", "bug", "crash", "slow",
   "fast", "easy", "difficult", "customer service", "support", "help"]

/-- `_extract_keywords` (mention_service.py, lines 171–195): keep the
product keywords occurring in the lowercased content, in list order, capped
by `found_keywords[:10]`. -/
def extract_keywords (content : String) : List String :=
  (product_keywords.filter (fun k => strContains (lowerStr content) k)).take 10

/-- `topic_keywords` (mention_service.py, `_extract_topics`). -/
def topic_keywords : List (String × List String) :=
  [("performance", ["slow", "fast", "lag", "speed", "performance", "quick"]),
   ("usability", ["easy", "difficult", "confusing", "simple", "user-friendly", "interface"]),
   ("pricing", ["expensive", "cheap", "cost", "price", "money", "billing", "subscription"]),
   ("features", ["feature", "function", "capability", "option", "tool"]),
   ("bugs", ["bug", "error", "crash", "broken", "glitch", "issue"]),
   ("customer_service", ["support", "help", "service", "staff", "team", "representative"]),
   ("design", ["design", "look", "appearance", "ui", "layout", "visual"])]

/-- `_extract_topics` (mention_service.py, lines 197–225): every topic one of
whose keywords occurs in the lowercased content, in declaration order;
the source applies no length cap. -/
def extract_topics (content : String) : List String :=
  (topic_keywords.filter
    (fun tk => tk.2.any (fun k => strContains (lowerStr content) k))).map (·.1)

/-! ## Helper lemmas -/

lemma one_le_priority_weight (p : String) : 1 ≤ priority_weight p := by
  unfold priority_weight
  split_ifs <;> norm_num

lemma one_le_intent_modifier (i : String) : 1 ≤ intent_modifier i := by
  unfold intent_modifier
  split_ifs <;> norm_num

lemma confidence_weight_pos (o : Option ℚ) (h : ∀ x, o = some x → 0 ≤ x) :
    0 < confidence_weight o := by
  cases o with
  | none => norm_num [confidence_weight]
  | some c =>
    have hc := h c rfl
    show (0 : ℚ) < if c = 0 then 0.5 else c
    split_ifs with h0
    · norm_num
    · exact lt_of_le_of_ne hc (Ne.symm h0)

lemma mention_weight_pos (m : UserMention) (h : conf_valid m) :
    0 < mention_weight m := by
  unfold mention_weight
  have h1 := one_le_priority_weight m.priority
  have h2 := one_le_intent_modifier m.intent
  have h3 : 0 < confidence_weight m.confidence_score :=
    confidence_weight_pos _ (fun x hx => (h x hx).1)
  have h12 : 0 < priority_weight m.priority * intent_modifier m.intent := by
    nlinarith
  exact mul_pos h12 h3

lemma sentiment_value_bounds (s : String) :
    20 ≤ sentiment_value s ∧ sentiment_value s ≤ 80 := by
  unfold sentiment_value
  split_ifs <;> norm_num

lemma total_mention_weight_cons (m : UserMention) (t : List UserMention) :
    total_mention_weight (m :: t) = mention_weight m + total_mention_weight t := by
  simp [total_mention_weight]

lemma total_weighted_score_cons (m : UserMention) (t : List UserMention) :
    total_weighted_score (m :: t) =
      sentiment_value m.sentiment * mention_weight m + total_weighted_score t := by
  simp [total_weighted_score]

lemma total_mention_weight_nonneg (ms : List UserMention)
    (h : ∀ m ∈ ms, conf_valid m) : 0 ≤ total_mention_weight ms := by
  induction ms with
  | nil => simp [total_mention_weight]
  | cons m t ih =>
    have hm := mention_weight_pos m (h m (List.mem_cons_self m t))
    have ht := ih (fun x hx => h x (List.mem_cons_of_mem m hx))
    rw [total_mention_weight_cons]
    linarith

lemma total_mention_weight_pos (ms : List UserMention) (hne : ms ≠ [])
    (h : ∀ m ∈ ms, conf_valid m) : 0 < total_mention_weight ms := by
  cases ms with
  | nil => exact absurd rfl hne
  | cons m t =>
    have hm := mention_weight_pos m (h m (List.mem_cons_self m t))
    have ht := total_mention_weight_nonneg t
      (fun x hx => h x (List.mem_cons_of_mem m hx))
    rw [total_mention_weight_cons]
    linarith

lemma weighted_score_bounds (ms : List UserMention)
    (h : ∀ m ∈ ms, conf_valid m) :
    20 * total_mention_weight ms ≤ total_weighted_score ms ∧
      total_weighted_score ms ≤ 80 * total_mention_weight ms := by
  induction ms with
  | nil => simp [total_mention_weight, total_weighted_score]
  | cons m t ih =>
    have hm := mention_weight_pos m (h m (List.mem_cons_self m t))
    have hsv := sentiment_value_bounds m.sentiment
    have iht := ih (fun x hx => h x (List.mem_cons_of_mem m hx))
    rw [total_mention_weight_cons, total_weighted_score_cons]
    constructor
    · have : 20 * mention_weight m ≤ sentiment_value m.sentiment * mention_weight m :=
        mul_le_mul_of_nonneg_right hsv.1 (le_of_lt hm)
      linarith [iht.1]
    · have : sentiment_value m.sentiment * mention_weight m ≤ 80 * mention_weight m :=
        mul_le_mul_of_nonneg_right hsv.2 (le_of_lt hm)
      linarith [iht.2]

lemma le_foldl_pick (f : String → ℕ) (l : List String) :
    ∀ acc : String,
      f acc ≤ f (l.foldl (fun b x => if f b < f x then x else b) acc) := by
  induction l with
  | nil => intro acc; exact le_refl _
  | cons a t ih =>
    intro acc
    simp only [List.foldl_cons]
    refine le_trans ?_ (ih (if f acc < f a then a else acc))
    split_ifs with h
    · exact le_of_lt h
    · exact le_refl _

lemma mem_le_foldl_pick (f : String → ℕ) (l : List String) :
    ∀ (acc x : String), x ∈ l →
      f x ≤ f (l.foldl (fun b x => if f b < f x then x else b) acc) := by
  induction l with
  | nil => intro acc x hx; simp at hx
  | cons a t ih =>
    intro acc x hx
    simp only [List.foldl_cons]
    rcases List.mem_cons.1 hx with rfl | hx
    · refine le_trans ?_ (le_foldl_pick f t (if f acc < f x then x else acc))
      split_ifs with h
      · exact le_refl _
      · exact le_of_not_lt h
    · exact ih _ x hx

lemma foldl_pick_mem (f : String → ℕ) (l : List String) :
    ∀ acc : String,
      (l.foldl (fun b x => if f b < f x then x else b) acc) ∈ acc :: l := by
  induction l with
  | nil => intro acc; simp
  | cons a t ih =>
    intro acc
    simp only [List.foldl_cons]
    have h := ih (if f acc < f a then a else acc)
    rcases List.mem_cons.1 h with he | hm
    · rw [he]
      split_ifs
      · exact List.mem_cons_of_mem _ (List.mem_cons_self a t)
      · exact List.mem_cons_self _ _
    · exact List.mem_cons_of_mem _ (List.mem_cons_of_mem a hm)

/-! ## The claims -/

/-- **C2** — On empty input the aggregators return the defined fallback
constants: `_calculate_reputation_score([])` is exactly 50.0, and
`detect_crisis_signals([])` returns crisis level "none", 0 total signals,
and an empty alert list. -/
theorem cold_start_defaults :
    calculate_reputation_score [] = 50 ∧
    (detect_crisis_signals []).crisis_level = "none" ∧
    (detect_crisis_signals []).total_signals = 0 ∧
    (detect_crisis_signals []).alerts = [] := by
  refine ⟨by norm_num [calculate_reputation_score], rfl, rfl, rfl⟩

/-- **C1, counterexample** — the claimed weight formula (a *present*
confidence score is always used as the confidence factor, 0.5 only when
absent) disagrees with the code on a mention whose stored confidence score
is 0.0: Python's `or` replaces the 0.0 by 0.5, so the code scores this pair
of mentions 35 while the claimed formula gives 80. -/
theorem reputation_formula_counterexample :
    calculate_reputation_score
      [⟨"positive", "low", "neutral_mention", some 1⟩,
       ⟨"negative", "critical", "complaint", some 0⟩] = 35 ∧
    claim_reputation_formula_orig
      [⟨"positive", "low", "neutral_mention", some 1⟩,
       ⟨"negative", "critical", "complaint", some 0⟩] = 80 := by
  constructor
  · simp only [calculate_reputation_score, total_mention_weight,
      total_weighted_score, mention_weight, priority_weight, intent_modifier,
      confidence_weight, sentiment_value, List.map_cons, List.map_nil,
      List.sum_cons, List.sum_nil, List.isEmpty_cons]
    simp
    norm_num
  · simp only [claim_reputation_formula_orig, priority_weight, intent_modifier,
      sentiment_value, Option.getD_some, List.map_cons, List.map_nil,
      List.sum_cons, List.sum_nil]
    simp
    norm_num

lemma claim_reputation_formula_eq (ms : List UserMention) :
    claim_reputation_formula ms =
      max 0 (min 100 (total_weighted_score ms / total_mention_weight ms)) := rfl

/-- **C1, amended** — for every non-empty list of classified mentions (each
stored confidence score in [0,1]), the reputation score equals the weighted
average Σ(sentimentValue × weight) / Σ(weight) clamped to [0,100], where the
confidence factor of a mention's weight is its confidence score with 0.5
substituted when the score is absent *or zero*. -/
theorem reputation_score_eq_weighted_average (ms : List UserMention)
    (hne : ms ≠ []) (hv : ∀ m ∈ ms, conf_valid m) :
    calculate_reputation_score ms = claim_reputation_formula ms := by
  have htw : 0 < total_mention_weight ms := total_mention_weight_pos ms hne hv
  rw [claim_reputation_formula_eq]
  obtain ⟨m, t, rfl⟩ : ∃ m t, ms = m :: t := by
    cases ms with
    | nil => exact absurd rfl hne
    | cons m t => exact ⟨m, t, rfl⟩
  show max 0 (min 100 (if 0 < total_mention_weight (m :: t) then
      total_weighted_score (m :: t) / total_mention_weight (m :: t)
    else 50.0)) = _
  rw [if_pos htw]

/-- Witness for C1: a singleton mention at full confidence. -/
theorem reputation_score_eq_weighted_average_witness :
    calculate_reputation_score [⟨"positive", "low", "neutral_mention", some 1⟩] =
      claim_reputation_formula [⟨"positive", "low", "neutral_mention", some 1⟩] := by
  refine reputation_score_eq_weighted_average _ (List.cons_ne_nil _ _) ?_
  intro m hm
  simp only [List.mem_singleton] at hm
  subst hm
  intro x hx
  cases hx
  norm_num

/-- **C10** — for every non-empty list of classified mentions, every
per-mention weight is strictly positive (priority weight ≥ 1, intent
modifier ≥ 1, and a zero/absent confidence score is replaced by 0.5), so
the weighted reputation score is a convex combination of the sentiment
values {20, 50, 80}: it lies in [20, 80] and the final [0,100] clamp never
alters the value. -/
theorem reputation_score_in_20_80 (ms : List UserMention)
    (hne : ms ≠ []) (hv : ∀ m ∈ ms, conf_valid m) :
    (∀ m ∈ ms, 0 < mention_weight m) ∧
    calculate_reputation_score ms =
      total_weighted_score ms / total_mention_weight ms ∧
    20 ≤ calculate_reputation_score ms ∧
    calculate_reputation_score ms ≤ 80 := by
  have htw : 0 < total_mention_weight ms := total_mention_weight_pos ms hne hv
  have hb := weighted_score_bounds ms hv
  have h20 : 20 ≤ total_weighted_score ms / total_mention_weight ms := by
    rw [le_div_iff₀ htw]
    linarith [hb.1]
  have h80 : total_weighted_score ms / total_mention_weight ms ≤ 80 := by
    rw [div_le_iff₀ htw]
    linarith [hb.2]
  have hcalc : calculate_reputation_score ms =
      total_weighted_score ms / total_mention_weight ms := by
    obtain ⟨m, t, rfl⟩ : ∃ m t, ms = m :: t := by
      cases ms with
      | nil => exact absurd rfl hne
      | cons m t => exact ⟨m, t, rfl⟩
    show max 0 (min 100 (if 0 < total_mention_weight (m :: t) then
        total_weighted_score (m :: t) / total_mention_weight (m :: t)
      else 50.0)) = _
    rw [if_pos htw, min_eq_right (by linarith), max_eq_right (by linarith)]
  exact ⟨fun m hm => mention_weight_pos m (hv m hm), hcalc, by
    rw [hcalc]; exact h20, by rw [hcalc]; exact h80⟩

/-- Witness for C10. -/
theorem reputation_score_in_20_80_witness :
    20 ≤ calculate_reputation_score
        [⟨"negative", "critical", "complaint", some 0.9⟩] ∧
      calculate_reputation_score
        [⟨"negative", "critical", "complaint", some 0.9⟩] ≤ 80 := by
  have h := reputation_score_in_20_80
    [⟨"negative", "critical", "complaint", some 0.9⟩]
    (List.cons_ne_nil _ _) ?_
  · exact ⟨h.2.2.1, h.2.2.2⟩
  · intro m hm
    simp only [List.mem_singleton] at hm
    subst hm
    intro x hx
    cases hx
    norm_num

/-- **C3, counterexample** — at `previous = 3, current = 4` the claim's
cascade says the raw percentage change `100/3` is used raw, but the source
ends with `round(trend_percentage, 1)` and returns `33.3`. -/
theorem trend_counterexample :
    calculate_realistic_trend 4 3 = 333/10 ∧
    claim_trend 4 3 = 100/3 ∧
    (333/10 : ℚ) ≠ 100/3 := by
  refine ⟨?_, ?_, by norm_num⟩
  · simp only [calculate_realistic_trend, round1, round_half_even]
    norm_num
  · simp only [claim_trend]
    norm_num

/-- **C3, amended** — the trend percentage obeys exactly the claimed capping
cascade, with the returned value rounded to one decimal place; in
particular `previous=1, current=10` yields +300% and `previous=0, current=5`
yields +100%. -/
theorem trend_capping :
    (∀ current previous : ℕ,
        calculate_realistic_trend current previous =
          round1 (claim_trend current previous)) ∧
    calculate_realistic_trend 10 1 = 300 ∧
    calculate_realistic_trend 5 0 = 100 := by
  refine ⟨?_, ?_, ?_⟩
  · intro c p
    unfold calculate_realistic_trend claim_trend
    split_ifs <;>
      first
        | rfl
        | (simp only [round1, round_half_even]; norm_num)
  · simp only [calculate_realistic_trend, round1, round_half_even]
    norm_num
  · norm_num [calculate_realistic_trend]

/-- **C5** — the priority ranker is a first-match-wins cascade whose first
rule fires, among other things, on any critical-severity keyword in the
lowercased content: whatever the sentiment result and the intent result,
a text containing a critical keyword is ranked "critical". -/
theorem critical_keyword_short_circuit
    (sentiment : SentimentInfo) (intent : IntentInfo) (content : String)
    (h : critical_keywords.any
        (fun k => strContains (lowerStr content) k) = true) :
    determine_priority sentiment intent content = "critical" := by
  unfold determine_priority
  rw [if_pos (Or.inr (Or.inr h))]

/-- Witness for C5: weak positive sentiment, neutral intent, but the text
contains "scam". -/
theorem critical_keyword_short_circuit_witness :
    determine_priority ⟨"positive", some 0.3⟩ ⟨"neutral_mention", some 0.5⟩
      "Great design but honestly a SCAM" = "critical" :=
  critical_keyword_short_circuit _ _ _ (by decide)

/-- Label thresholds of `_get_sentiment_label`. -/
lemma get_sentiment_label_iff (q : ℚ) :
    (get_sentiment_label q = "positive" ↔ 0.05 < q) ∧
    (get_sentiment_label q = "negative" ↔ q < -0.05) ∧
    (get_sentiment_label q = "neutral" ↔ -0.05 ≤ q ∧ q ≤ 0.05) := by
  unfold get_sentiment_label
  split_ifs with h1 h2
  · refine ⟨⟨fun _ => h1, fun _ => rfl⟩, ⟨fun hh => ?_, fun hh => ?_⟩,
      ⟨fun hh => ?_, fun hh => ?_⟩⟩
    · exact absurd hh (by decide)
    · exact absurd h1 (by linarith)
    · exact absurd hh (by decide)
    · exact absurd h1 (by linarith [hh.2])
  · refine ⟨⟨fun hh => absurd hh (by decide), fun hh => absurd hh h1⟩,
      ⟨fun _ => h2, fun _ => rfl⟩,
      ⟨fun hh => absurd hh (by decide), fun hh => absurd h2 (by linarith [hh.1])⟩⟩
  · refine ⟨⟨fun hh => absurd hh (by decide), fun hh => absurd hh h1⟩,
      ⟨fun hh => absurd hh (by decide), fun hh => absurd hh h2⟩,
      ⟨fun _ => ⟨by linarith [not_lt.1 h2], by linarith [not_lt.1 h1]⟩,
        fun _ => rfl⟩⟩

/-- **C7** — for every matcher, input text and base polarity, the adjusted
polarity of `_apply_context_adjustments` (base plus the triggered deltas,
positive-reinforcement deltas only when the base polarity is positive) lies
in [-1, 1] after the final clamp, and `_get_sentiment_label` labels it
"positive" exactly above 0.05, "negative" exactly below -0.05, and
"neutral" otherwise. -/
theorem adjusted_polarity_range_and_label
    (research : String → String → Bool) (text : String) (base_polarity : ℚ) :
    (-1 ≤ apply_context_adjustments research text base_polarity ∧
      apply_context_adjustments research text base_polarity ≤ 1) ∧
    (get_sentiment_label (apply_context_adjustments research text base_polarity)
        = "positive" ↔
      0.05 < apply_context_adjustments research text base_polarity) ∧
    (get_sentiment_label (apply_context_adjustments research text base_polarity)
        = "negative" ↔
      apply_context_adjustments research text base_polarity < -0.05) ∧
    (get_sentiment_label (apply_context_adjustments research text base_polarity)
        = "neutral" ↔
      -0.05 ≤ apply_context_adjustments research text base_polarity ∧
        apply_context_adjustments research text base_polarity ≤ 0.05) := by
  have hiff := get_sentiment_label_iff
    (apply_context_adjustments research text base_polarity)
  refine ⟨?_, hiff.1, hiff.2.1, hiff.2.2⟩
  unfold apply_context_adjustments
  constructor
  · refine le_trans (by norm_num) (le_max_left (-1.0) _)
  · refine max_le (by norm_num) (le_trans (min_le_left 1.0 _) (by norm_num))

/-- **C8, counterexample** — the cited extraction code caps keywords with
`found_keywords[:10]`, not at 7, and applies no cap at all to topics: this
content yields 10 extracted keywords and all 7 topics. -/
theorem extraction_caps_counterexample :
    7 < (extract_keywords "app service price cost payment billing subscription feature update design bug crash slow fast easy support help").length ∧
    4 < (extract_topics "app service price cost payment billing subscription feature update design bug crash slow fast easy support help").length := by
  constructor
  · decide
  · decide

/-- **C8, amended** — for every content, `_extract_keywords` returns at most
10 keywords and `_extract_topics` at most 7 topics (one per category of the
fixed taxonomy), each list in the declaration order of its vocabulary. -/
theorem extraction_caps (content : String) :
    (extract_keywords content).length ≤ 10 ∧
    (extract_topics content).length ≤ 7 := by
  constructor
  · exact List.length_take_le 10 _
  · unfold extract_topics
    rw [List.length_map]
    calc (topic_keywords.filter _).length
        ≤ topic_keywords.length := List.length_filter_le _ _
      _ = 7 := rfl

/-- **C9** — `analyze_sentiment` never propagates a failure of the optional
external (LLM) strategy: whenever that path fails — missing configuration
(falsy `OPENAI_API_KEY`) or any failure of the attempt (exception, malformed
or unparseable response, all of which the source folds into a `None`
result) — the function returns the local rule-based (TextBlob + pattern
adjustments) result instead. -/
theorem sentiment_external_fallback
    (research : String → String → Bool) (api_key : Option String)
    (openai_result : Option SentimentOutput) (text : String)
    (base_polarity subjectivity : ℚ)
    (h : api_key.getD "" = "" ∨ openai_result = none) :
    analyze_sentiment research api_key openai_result text
        base_polarity subjectivity =
      textblob_enhanced_result research text base_polarity subjectivity := by
  unfold analyze_sentiment
  rcases h with h | h
  · rw [if_neg (by simp [h])]
  · rw [h]
    split_ifs <;> rfl

/-- Witness for C9: no API key configured and a failed external attempt. -/
theorem sentiment_external_fallback_witness :
    analyze_sentiment (fun _ _ => false) none none "ok" 0 0 =
      textblob_enhanced_result (fun _ _ => false) "ok" 0 0 :=
  sentiment_external_fallback _ _ _ _ _ _ (Or.inl rfl)

lemma detect_crisis_signals_cons (r : Review) (t : List Review) :
    detect_crisis_signals (r :: t) =
      ⟨crisis_keywords.filterMap (fun ck =>
          if 2 ≤ signal_count (r :: t) ck.1 then
            some ⟨ck.1,
              if 5 ≤ signal_count (r :: t) ck.1 then "high" else "medium",
              signal_count (r :: t) ck.1,
              crisis_alert_message ck.1 (signal_count (r :: t) ck.1)⟩
          else none),
        crisis_level_of (crisis_total_signals (r :: t)),
        crisis_total_signals (r :: t)⟩ := rfl

/-- **C4** — for every non-empty batch the crisis level is the pure
inclusive-threshold function of `total_signals` (≥10 critical, ≥5 high,
≥2 medium, else low — so "none" never occurs on non-empty input); an alert
exists for exactly the categories whose signal count is ≥ 2, carrying that
count and severity "high" iff the count is ≥ 5; and twelve mentions each
containing "not working" give 12 total signals at level "critical". -/
theorem detect_crisis_spec :
    (∀ reviews : List Review, reviews ≠ [] →
      ((10 ≤ (detect_crisis_signals reviews).total_signals →
          (detect_crisis_signals reviews).crisis_level = "critical") ∧
       (5 ≤ (detect_crisis_signals reviews).total_signals ∧
          (detect_crisis_signals reviews).total_signals < 10 →
          (detect_crisis_signals reviews).crisis_level = "high") ∧
       (2 ≤ (detect_crisis_signals reviews).total_signals ∧
          (detect_crisis_signals reviews).total_signals < 5 →
          (detect_crisis_signals reviews).crisis_level = "medium") ∧
       ((detect_crisis_signals reviews).total_signals < 2 →
          (detect_crisis_signals reviews).crisis_level = "low")) ∧
      (∀ cat : String,
        ((∃ a ∈ (detect_crisis_signals reviews).alerts, a.category = cat) ↔
          cat ∈ crisis_categories ∧ 2 ≤ signal_count reviews cat)) ∧
      (∀ a ∈ (detect_crisis_signals reviews).alerts,
        a.count = signal_count reviews a.category ∧
        a.severity = (if 5 ≤ a.count then "high" else "medium"))) ∧
    ((detect_crisis_signals
        (List.replicate 12 ⟨"app not working", ""⟩)).total_signals = 12 ∧
     (detect_crisis_signals
        (List.replicate 12 ⟨"app not working", ""⟩)).crisis_level = "critical") := by
  constructor
  · intro reviews hne
    obtain ⟨r, t, rfl⟩ : ∃ r t, reviews = r :: t := by
      cases reviews with
      | nil => exact absurd rfl hne
      | cons r t => exact ⟨r, t, rfl⟩
    rw [detect_crisis_signals_cons]
    dsimp only
    refine ⟨⟨?_, ?_, ?_, ?_⟩, ?_, ?_⟩
    · intro h
      unfold crisis_level_of
      rw [if_pos h]
    · intro h
      unfold crisis_level_of
      rw [if_neg (by omega), if_pos h.1]
    · intro h
      unfold crisis_level_of
      rw [if_neg (by omega), if_neg (by omega), if_pos h.1]
    · intro h
      unfold crisis_level_of
      rw [if_neg (by omega), if_neg (by omega), if_neg (by omega)]
    · intro cat
      constructor
      · rintro ⟨a, ha, rfl⟩
        rw [List.mem_filterMap] at ha
        obtain ⟨ck, hck, heq⟩ := ha
        by_cases h2 : 2 ≤ signal_count (r :: t) ck.1
        · rw [if_pos h2] at heq
          obtain rfl := Option.some.inj heq
          exact ⟨List.mem_map_of_mem _ hck, h2⟩
        · rw [if_neg h2] at heq
          exact absurd heq (by simp)
      · rintro ⟨hmem, h2⟩
        obtain ⟨ck, hck, rfl⟩ := List.mem_map.1 hmem
        refine ⟨⟨ck.1, if 5 ≤ signal_count (r :: t) ck.1 then "high" else "medium",
          signal_count (r :: t) ck.1,
          crisis_alert_message ck.1 (signal_count (r :: t) ck.1)⟩, ?_, rfl⟩
        rw [List.mem_filterMap]
        exact ⟨ck, hck, by rw [if_pos h2]⟩
    · intro a ha
      rw [List.mem_filterMap] at ha
      obtain ⟨ck, hck, heq⟩ := ha
      by_cases h2 : 2 ≤ signal_count (r :: t) ck.1
      · rw [if_pos h2] at heq
        obtain rfl := Option.some.inj heq
        exact ⟨rfl, rfl⟩
      · rw [if_neg h2] at heq
        exact absurd heq (by simp)
  · constructor
    · decide
    · decide

/-- Witness for C4: a single "not working" mention has one signal, below
every alert threshold, so the level is "low". -/
theorem detect_crisis_spec_witness :
    (detect_crisis_signals [⟨"app not working", ""⟩]).crisis_level = "low" := by
  have h := (detect_crisis_spec.1 [⟨"app not working", ""⟩]
    (List.cons_ne_nil _ _)).1.2.2.2
  exact h (by decide)

/-- **C6** — `classify_intent` counts keyword hits per category in the
lowercased text and returns a highest-scoring category with confidence
`min(1.0, hits/3)`; when no category scores above zero it returns
`neutral_mention` at confidence exactly 0.5 with no matched keywords. -/
theorem classify_intent_spec (text : String) :
    ((∀ c ∈ intent_categories, intent_score text c = 0) →
        classify_intent text = ⟨"neutral_mention", 0.5, []⟩) ∧
    ((∃ c ∈ intent_categories, 0 < intent_score text c) →
        (classify_intent text).intent ∈ intent_categories ∧
        (∀ c ∈ intent_categories,
            intent_score text c ≤ intent_score text (classify_intent text).intent) ∧
        (classify_intent text).confidence =
          min 1.0 ((intent_score text (classify_intent text).intent : ℚ) / 3)) := by
  constructor
  · intro hz
    have he : eligible_intents text = [] := by
      unfold eligible_intents
      rw [List.filter_eq_nil_iff]
      intro c hc
      simp [hz c hc]
    unfold classify_intent
    rw [he]
    rfl
  · rintro ⟨c0, hc0, hpos⟩
    obtain ⟨c, cs, hecc⟩ : ∃ c cs, eligible_intents text = c :: cs := by
      cases h : eligible_intents text with
      | nil =>
        exfalso
        have hm : c0 ∈ eligible_intents text := by
          unfold eligible_intents
          rw [List.mem_filter]
          exact ⟨hc0, by simpa using hpos⟩
        rw [h] at hm
        simp at hm
      | cons c cs => exact ⟨c, cs, rfl⟩
    have hcl : classify_intent text =
        ⟨cs.foldl (fun b x =>
            if intent_score text b < intent_score text x then x else b) c,
          min 1.0 ((intent_score text (cs.foldl (fun b x =>
            if intent_score text b < intent_score text x then x else b) c) : ℚ) / 3),
          (intent_keywords_for (cs.foldl (fun b x =>
            if intent_score text b < intent_score text x then x else b) c)).filter
            (fun k => strContains (lowerStr text) k)⟩ := by
      unfold classify_intent pick_first_max
      rw [hecc]
    have hpmem : (cs.foldl (fun b x =>
        if intent_score text b < intent_score text x then x else b) c) ∈
        eligible_intents text := by
      rw [hecc]
      exact foldl_pick_mem (intent_score text) cs c
    have hpcat : (cs.foldl (fun b x =>
        if intent_score text b < intent_score text x then x else b) c) ∈
        intent_categories := by
      have := List.mem_filter.1 (by
        unfold eligible_intents at hpmem
        exact hpmem)
      exact this.1
    rw [hcl]
    refine ⟨hpcat, ?_, rfl⟩
    intro c' hc'
    by_cases h0 : intent_score text c' = 0
    · rw [h0]
      exact Nat.zero_le _
    · have hc'el : c' ∈ eligible_intents text := by
        unfold eligible_intents
        rw [List.mem_filter]
        exact ⟨hc', by simp [Nat.pos_of_ne_zero h0]⟩
      rw [hecc] at hc'el
      rcases List.mem_cons.1 hc'el with rfl | hmem
      · exact le_foldl_pick (intent_score text) cs c'
      · exact mem_le_foldl_pick (intent_score text) cs c c' hmem

/-- Witness for C6: "how to get help" hits the question keywords
"how to" and "help", so the returned category is maximal (the question
category) at confidence min(1, 2/3). -/
theorem classify_intent_spec_witness :
    (classify_intent "how to get help").intent ∈ intent_categories ∧
    (classify_intent "how to get help").confidence =
      min 1.0 ((intent_score "how to get help"
        (classify_intent "how to get help").intent : ℚ) / 3) := by
  have h := (classify_intent_spec "how to get help").2
    ⟨"question", by decide, by decide⟩
  exact ⟨h.1, h.2.2⟩
